import Mathlib

/-!
Shallow embedding of `src/components/BovineScanner.tsx` from the
BovineAI-scanner prototype: the component's local state, its event
handlers (`handleFileSelect`, `startAnalysis`, the analysis timer
callback, `resetScanner`, `saveResults`), the static per-breed result
table, and the score-label helper.  Browser effects are made explicit:
`URL.createObjectURL` is modelled by a counter generating fresh URL
strings, and calls to `URL.revokeObjectURL` and `toast` are recorded in
effect logs carried by the state.
-/

/-- The `AnalysisResult` interface: height (cm), length (cm), score,
breed display name, confidence percentage. -/
structure AnalysisResult where
  height : Int
  length : Int
  score : Int
  breed : String
  confidence : Int
deriving Repr, DecidableEq

/-- The `ScanStage` union type: `'upload' | 'analyzing' | 'results'`. -/
inductive ScanStage where
  | upload
  | analyzing
  | results
deriving Repr, DecidableEq

/-- The breed ids offered by the breed `Select` dropdown (the `value`
fields of the static `breeds` array). -/
def breedValues : List String := ["sahiwal", "murrah", "gir", "holstein"]

/-- The static `sampleResults` table, keyed by breed id. -/
def sampleResults : List (String × AnalysisResult) :=
  [ ("sahiwal",  { height := 142, length := 155, score := 87, breed := "Sahiwal",           confidence := 94 }),
    ("murrah",   { height := 135, length := 148, score := 92, breed := "Murrah Buffalo",    confidence := 96 }),
    ("gir",      { height := 138, length := 150, score := 85, breed := "Gir",               confidence := 89 }),
    ("holstein", { height := 145, length := 160, score := 90, breed := "Holstein Friesian", confidence := 92 }) ]

/-- Looking a breed id up in the `sampleResults` record (own properties
of the object literal). -/
def lookupSample (b : String) : Option AnalysisResult :=
  sampleResults.lookup b

/-- The `sampleResults.sahiwal` entry, the fallback of the lookup. -/
def sahiwalBaseline : AnalysisResult :=
  { height := 142, length := 155, score := 87, breed := "Sahiwal", confidence := 94 }

/-- `sampleResults[selectedBreed] || sampleResults.sahiwal`. -/
def resolveBaseline (b : String) : AnalysisResult :=
  (lookupSample b).getD sahiwalBaseline

/-- `String.prototype.startsWith`, modelled on the character lists of
the strings (character-wise prefix test). -/
def stringStartsWith (s p : String) : Bool := p.data.isPrefixOf s.data

/-- A browser `File` as the handlers consult it: its MIME `type` and
its `size` in bytes. -/
structure JSFile where
  type : String
  size : Nat
deriving Repr, DecidableEq

/-- `URL.createObjectURL`, modelled as a generator of fresh blob URLs
driven by a counter held in the component state. -/
def createObjectURL (n : Nat) : String := "blob:" ++ Nat.repr n

/-- The component's local state (`useState` hooks), together with the
URL-generator counter and explicit effect logs: every URL passed to
`URL.revokeObjectURL` and every toast title emitted. -/
structure ScannerState where
  selectedBreed : String
  selectedFile : Option JSFile
  previewUrl : String
  scanStage : ScanStage
  analysisResult : Option AnalysisResult
  isDragging : Bool
  nextUrl : Nat
  revokedUrls : List String
  toasts : List String
deriving Repr, DecidableEq

/-- The initial state of the hooks: empty breed, no file, empty preview
URL, stage `'upload'`, no result. -/
def initialState : ScannerState :=
  { selectedBreed := ""
    selectedFile := none
    previewUrl := ""
    scanStage := ScanStage.upload
    analysisResult := none
    isDragging := false
    nextUrl := 0
    revokedUrls := []
    toasts := [] }

/-- `handleFileSelect`: rejects non-image MIME types, then files over
10 MiB, each with a destructive toast and an early return; otherwise
stores the file, creates and stores a fresh preview URL, and emits an
upload toast. -/
def handleFileSelect (s : ScannerState) (file : JSFile) : ScannerState :=
  if !(stringStartsWith file.type "image/") then
    { s with toasts := s.toasts ++ ["Invalid File Type"] }
  else if file.size > 10 * 1024 * 1024 then
    { s with toasts := s.toasts ++ ["File Too Large"] }
  else
    { s with
        selectedFile := some file
        previewUrl := createObjectURL s.nextUrl
        nextUrl := s.nextUrl + 1
        toasts := s.toasts ++ ["Image Uploaded"] }

/-- The synchronous part of `startAnalysis`: returns unchanged when
`!selectedFile || !selectedBreed` (the empty string is falsy),
otherwise sets the stage to `'analyzing'` (the result computation runs
later in the timer callback). -/
def startAnalysis (s : ScannerState) : ScannerState :=
  if s.selectedFile = none ∨ s.selectedBreed = "" then s
  else { s with scanStage := ScanStage.analyzing }

/-- One draw of `variation()`, i.e. `Math.round((Math.random() - 0.5) * 10)`:
an integer in `[-5, 5]`. -/
def variationBound (v : Int) : Prop := -5 ≤ v ∧ v ≤ 5

instance (v : Int) : Decidable (variationBound v) := by
  unfold variationBound; infer_instance

/-- The `finalResult` computed inside the `setTimeout` callback of
`startAnalysis`: baseline from the table (sahiwal fallback), plus one
independent variation draw each for height, length and score, with the
floors/clamp from the source. -/
def computeResult (breed : String) (v1 v2 v3 : Int) : AnalysisResult :=
  let result := resolveBaseline breed
  { result with
      height := max 120 (result.height + v1)
      length := max 140 (result.length + v2)
      score := max 70 (min 100 (result.score + v3)) }

/-- The `setTimeout` callback of `startAnalysis`: stores the computed
result, moves the stage to `'results'`, and emits the completion
toast. -/
def analysisComplete (s : ScannerState) (v1 v2 v3 : Int) : ScannerState :=
  { s with
      analysisResult := some (computeResult s.selectedBreed v1 v2 v3)
      scanStage := ScanStage.results
      toasts := s.toasts ++ ["Analysis Complete"] }

/-- `resetScanner`: clears stage, file, preview URL, result and breed;
the trailing `if (previewUrl) URL.revokeObjectURL(previewUrl)` reads
the pre-call `previewUrl` closure value, so the old URL (when
non-empty) is appended to the revocation log. -/
def resetScanner (s : ScannerState) : ScannerState :=
  let cleared :=
    { s with
        scanStage := ScanStage.upload
        selectedFile := none
        previewUrl := ""
        analysisResult := none
        selectedBreed := "" }
  if s.previewUrl ≠ "" then
    { cleared with revokedUrls := cleared.revokedUrls ++ [s.previewUrl] }
  else cleared

/-- `saveResults`: a no-op apart from a success toast, guarded on a
result being present. -/
def saveResults (s : ScannerState) : ScannerState :=
  if s.analysisResult = none then s
  else { s with toasts := s.toasts ++ ["Results Saved"] }

/-- `getScoreLabel`: the qualitative banding of a score. -/
def getScoreLabel (score : Int) : String :=
  if score ≥ 90 then "Excellent"
  else if score ≥ 80 then "Good"
  else if score ≥ 70 then "Average"
  else "Poor"

/-- `getScoreColor`: the colour banding of a score. -/
def getScoreColor (score : Int) : String :=
  if score ≥ 90 then "text-success"
  else if score ≥ 80 then "text-primary"
  else if score ≥ 70 then "text-yellow-600"
  else "text-destructive"

/-- The user/browser events the rendered view can deliver.  Which event
is available in which stage follows the JSX: the breed `Select`, the
upload zone (click, drop, drag handlers) and the start button are
rendered only in the `'upload'` stage; the reset and save buttons only
in the `'results'` stage; the analysis timer fires while the component
is in the `'analyzing'` stage (no interactive element exists there). -/
inductive Event where
  | selectBreed (b : String)
  | chooseFile (f : JSFile)
  | clickStart
  | timerDone (v1 v2 v3 : Int)
  | clickReset
  | clickSave
  | dragEnter
  | dragEnd

/-- One step of the component: `none` when the event's triggering UI
element is not rendered in the current stage (per the JSX), otherwise
the handler's effect on the state.  `selectBreed` only delivers values
of the fixed dropdown; `timerDone` only delivers variation draws the
source's `Math.round((Math.random() - 0.5) * 10)` can produce. -/
def step (s : ScannerState) : Event → Option ScannerState
  | Event.selectBreed b =>
      if s.scanStage = ScanStage.upload ∧ b ∈ breedValues then
        some { s with selectedBreed := b }
      else none
  | Event.chooseFile f =>
      if s.scanStage = ScanStage.upload then some (handleFileSelect s f) else none
  | Event.clickStart =>
      if s.scanStage = ScanStage.upload then some (startAnalysis s) else none
  | Event.timerDone v1 v2 v3 =>
      if s.scanStage = ScanStage.analyzing ∧
          variationBound v1 ∧ variationBound v2 ∧ variationBound v3 then
        some (analysisComplete s v1 v2 v3)
      else none
  | Event.clickReset =>
      if s.scanStage = ScanStage.results then some (resetScanner s) else none
  | Event.clickSave =>
      if s.scanStage = ScanStage.results then some (saveResults s) else none
  | Event.dragEnter =>
      if s.scanStage = ScanStage.upload then some { s with isDragging := true } else none
  | Event.dragEnd =>
      if s.scanStage = ScanStage.upload then some { s with isDragging := false } else none

/-- States reachable from the initial hook state by the component's
event handlers. -/
inductive Reachable : ScannerState → Prop where
  | init : Reachable initialState
  | next {s s' : ScannerState} {e : Event} :
      Reachable s → step s e = some s' → Reachable s'

/-! Helper lemmas on the embedded definitions. -/

theorem computeResult_height (b : String) (v1 v2 v3 : Int) :
    (computeResult b v1 v2 v3).height = max 120 ((resolveBaseline b).height + v1) := rfl

theorem computeResult_length (b : String) (v1 v2 v3 : Int) :
    (computeResult b v1 v2 v3).length = max 140 ((resolveBaseline b).length + v2) := rfl

theorem computeResult_score (b : String) (v1 v2 v3 : Int) :
    (computeResult b v1 v2 v3).score = max 70 (min 100 ((resolveBaseline b).score + v3)) := rfl

theorem computeResult_confidence (b : String) (v1 v2 v3 : Int) :
    (computeResult b v1 v2 v3).confidence = (resolveBaseline b).confidence := rfl

theorem lookupSample_eq_none {b : String} (h : b ∉ sampleResults.map Prod.fst) :
    lookupSample b = none := by
  simp only [sampleResults, List.map, List.mem_cons, List.not_mem_nil, or_false, not_or] at h
  obtain ⟨h1, h2, h3, h4⟩ := h
  simp [lookupSample, sampleResults, List.lookup, beq_false_of_ne h1,
    beq_false_of_ne h2, beq_false_of_ne h3, beq_false_of_ne h4]

/-- C9: for every integer score the qualitative label is "Excellent"
when score ≥ 90, "Good" when 80 ≤ score < 90, "Average" when
70 ≤ score < 80, and "Poor" when score < 70. -/
theorem getScoreLabel_banding (score : Int) :
    (90 ≤ score → getScoreLabel score = "Excellent") ∧
    (80 ≤ score ∧ score < 90 → getScoreLabel score = "Good") ∧
    (70 ≤ score ∧ score < 80 → getScoreLabel score = "Average") ∧
    (score < 70 → getScoreLabel score = "Poor") := by
  refine ⟨fun h => ?_, fun h => ?_, fun h => ?_, fun h => ?_⟩ <;>
    simp only [getScoreLabel] <;> split_ifs <;> first | rfl | omega

/-- Witness for C9 at scores 95, 85, 75 and 65. -/
theorem getScoreLabel_banding_witness :
    getScoreLabel 95 = "Excellent" ∧ getScoreLabel 85 = "Good" ∧
    getScoreLabel 75 = "Average" ∧ getScoreLabel 65 = "Poor" :=
  ⟨(getScoreLabel_banding 95).1 (by decide),
   (getScoreLabel_banding 85).2.1 (by decide),
   (getScoreLabel_banding 75).2.2.1 (by decide),
   (getScoreLabel_banding 65).2.2.2 (by decide)⟩

/-- C2: for every breed in the static table and every jitter draw in
the range `variation()` can produce, the result stored when the
analysis timer completes has score in [70, 100], height ≥ 120 and
length ≥ 140. -/
theorem analysisComplete_bounds (s : ScannerState) (v1 v2 v3 : Int)
    (hb : s.selectedBreed ∈ sampleResults.map Prod.fst)
    (h1 : variationBound v1) (h2 : variationBound v2) (h3 : variationBound v3) :
    ∃ r, (analysisComplete s v1 v2 v3).analysisResult = some r ∧
      70 ≤ r.score ∧ r.score ≤ 100 ∧ 120 ≤ r.height ∧ 140 ≤ r.length := by
  refine ⟨computeResult s.selectedBreed v1 v2 v3, rfl, ?_, ?_, ?_, ?_⟩ <;>
    simp only [computeResult_score, computeResult_height, computeResult_length] <;> omega

/-- Witness for C2 at breed "gir" and draws 5, -5, 4. -/
theorem analysisComplete_bounds_witness :
    ∃ r, (analysisComplete { initialState with selectedBreed := "gir" } 5 (-5) 4).analysisResult
        = some r ∧ 70 ≤ r.score ∧ r.score ≤ 100 ∧ 120 ≤ r.height ∧ 140 ≤ r.length :=
  analysisComplete_bounds { initialState with selectedBreed := "gir" } 5 (-5) 4
    (by decide) (by decide) (by decide) (by decide)

/-- C8: with breed "murrah" (baseline height 135, length 148, score 92,
confidence 96) every outcome with jitter draws in [-5, 5] has height in
[130, 140], length in [143, 153], score in [87, 97], and confidence
exactly 96. -/
theorem murrah_outcome_bounds (v1 v2 v3 : Int)
    (h1 : variationBound v1) (h2 : variationBound v2) (h3 : variationBound v3) :
    130 ≤ (computeResult "murrah" v1 v2 v3).height ∧
    (computeResult "murrah" v1 v2 v3).height ≤ 140 ∧
    143 ≤ (computeResult "murrah" v1 v2 v3).length ∧
    (computeResult "murrah" v1 v2 v3).length ≤ 153 ∧
    87 ≤ (computeResult "murrah" v1 v2 v3).score ∧
    (computeResult "murrah" v1 v2 v3).score ≤ 97 ∧
    (computeResult "murrah" v1 v2 v3).confidence = 96 := by
  have hm : resolveBaseline "murrah"
      = { height := 135, length := 148, score := 92, breed := "Murrah Buffalo",
          confidence := 96 } := by decide
  obtain ⟨l1, r1⟩ := h1
  obtain ⟨l2, r2⟩ := h2
  obtain ⟨l3, r3⟩ := h3
  refine ⟨?_, ?_, ?_, ?_, ?_, ?_, ?_⟩ <;>
    simp only [computeResult_height, computeResult_length, computeResult_score,
      computeResult_confidence, hm] <;> omega

/-- Witness for C8 at draws 5, -5, 0. -/
theorem murrah_outcome_bounds_witness :
    130 ≤ (computeResult "murrah" 5 (-5) 0).height ∧
    (computeResult "murrah" 5 (-5) 0).height ≤ 140 ∧
    143 ≤ (computeResult "murrah" 5 (-5) 0).length ∧
    (computeResult "murrah" 5 (-5) 0).length ≤ 153 ∧
    87 ≤ (computeResult "murrah" 5 (-5) 0).score ∧
    (computeResult "murrah" 5 (-5) 0).score ≤ 97 ∧
    (computeResult "murrah" 5 (-5) 0).confidence = 96 :=
  murrah_outcome_bounds 5 (-5) 0 (by decide) (by decide) (by decide)

/-- C10: the analysis timer callback always stores a result, and for a
selected breed id absent from the static table the result is the one
the sahiwal baseline would give. -/
theorem lookup_total_with_fallback (s : ScannerState) (v1 v2 v3 : Int) :
    (analysisComplete s v1 v2 v3).analysisResult
        = some (computeResult s.selectedBreed v1 v2 v3) ∧
    (s.selectedBreed ∉ sampleResults.map Prod.fst →
      computeResult s.selectedBreed v1 v2 v3 = computeResult "sahiwal" v1 v2 v3) := by
  refine ⟨rfl, fun h => ?_⟩
  have hn : lookupSample s.selectedBreed = none := lookupSample_eq_none h
  have hr : resolveBaseline s.selectedBreed = resolveBaseline "sahiwal" := by
    simp [resolveBaseline, hn]
    decide
  simp only [computeResult, hr]

/-- Witness for C10 at the unknown breed id "zebu". -/
theorem lookup_total_with_fallback_witness :
    computeResult "zebu" 1 2 3 = computeResult "sahiwal" 1 2 3 :=
  (lookup_total_with_fallback { initialState with selectedBreed := "zebu" } 1 2 3).2
    (by decide)

/-- C3: the start action moves the stage from Upload to Analyzing when
both a breed and a file are set, changing nothing else; when either is
missing it leaves the whole state unchanged. -/
theorem startAnalysis_guard (s : ScannerState) :
    (s.scanStage = ScanStage.upload → s.selectedFile ≠ none → s.selectedBreed ≠ "" →
      startAnalysis s = { s with scanStage := ScanStage.analyzing }) ∧
    (s.selectedFile = none ∨ s.selectedBreed = "" → startAnalysis s = s) := by
  constructor
  · intro _ hf hb
    simp [startAnalysis, hf, hb]
  · intro h
    rcases h with h | h <;> simp [startAnalysis, h]

/-- A state in the upload stage with a breed and a valid file chosen,
used to exercise the start action. -/
def uploadReadyState : ScannerState :=
  { initialState with
      selectedBreed := "gir"
      selectedFile := some { type := "image/png", size := 4096 } }

/-- Witness for C3: start fires on a ready state and is inert on the
initial state. -/
theorem startAnalysis_guard_witness :
    startAnalysis uploadReadyState = { uploadReadyState with scanStage := ScanStage.analyzing } ∧
    startAnalysis initialState = initialState :=
  ⟨(startAnalysis_guard uploadReadyState).1 rfl (by decide) (by decide),
   (startAnalysis_guard initialState).2 (Or.inl rfl)⟩

/-- C4: a file whose MIME type does not start with "image/" is
rejected: a destructive toast is emitted and the stored file, preview
URL, stage, breed, result, URL counter and revocation log are exactly
as before the call. -/
theorem reject_non_image (s : ScannerState) (f : JSFile)
    (h : stringStartsWith f.type "image/" = false) :
    (handleFileSelect s f).selectedFile = s.selectedFile ∧
    (handleFileSelect s f).previewUrl = s.previewUrl ∧
    (handleFileSelect s f).scanStage = s.scanStage ∧
    (handleFileSelect s f).selectedBreed = s.selectedBreed ∧
    (handleFileSelect s f).analysisResult = s.analysisResult ∧
    (handleFileSelect s f).nextUrl = s.nextUrl ∧
    (handleFileSelect s f).revokedUrls = s.revokedUrls ∧
    (handleFileSelect s f).toasts = s.toasts ++ ["Invalid File Type"] := by
  simp [handleFileSelect, h]

/-- Witness for C4 at a PDF upload against the initial state. -/
theorem reject_non_image_witness :
    (handleFileSelect initialState { type := "application/pdf", size := 3 }).selectedFile
        = initialState.selectedFile ∧
    (handleFileSelect initialState { type := "application/pdf", size := 3 }).previewUrl
        = initialState.previewUrl ∧
    (handleFileSelect initialState { type := "application/pdf", size := 3 }).scanStage
        = initialState.scanStage ∧
    (handleFileSelect initialState { type := "application/pdf", size := 3 }).selectedBreed
        = initialState.selectedBreed ∧
    (handleFileSelect initialState { type := "application/pdf", size := 3 }).analysisResult
        = initialState.analysisResult ∧
    (handleFileSelect initialState { type := "application/pdf", size := 3 }).nextUrl
        = initialState.nextUrl ∧
    (handleFileSelect initialState { type := "application/pdf", size := 3 }).revokedUrls
        = initialState.revokedUrls ∧
    (handleFileSelect initialState { type := "application/pdf", size := 3 }).toasts
        = initialState.toasts ++ ["Invalid File Type"] :=
  reject_non_image initialState { type := "application/pdf", size := 3 } (by decide)

/-- C5: a file larger than 10 MiB is rejected whatever its MIME type:
no file is stored, no preview URL is created, the rest of the state is
unchanged, and exactly one rejection toast is emitted. -/
theorem reject_oversized (s : ScannerState) (f : JSFile)
    (h : f.size > 10 * 1024 * 1024) :
    (handleFileSelect s f).selectedFile = s.selectedFile ∧
    (handleFileSelect s f).previewUrl = s.previewUrl ∧
    (handleFileSelect s f).nextUrl = s.nextUrl ∧
    (handleFileSelect s f).scanStage = s.scanStage ∧
    (handleFileSelect s f).selectedBreed = s.selectedBreed ∧
    (handleFileSelect s f).analysisResult = s.analysisResult ∧
    (handleFileSelect s f).revokedUrls = s.revokedUrls ∧
    ∃ t, (handleFileSelect s f).toasts = s.toasts ++ [t] := by
  by_cases him : stringStartsWith f.type "image/"
  · refine ⟨?_, ?_, ?_, ?_, ?_, ?_, ?_, "File Too Large", ?_⟩ <;>
      simp [handleFileSelect, him, h]
  · refine ⟨?_, ?_, ?_, ?_, ?_, ?_, ?_, "Invalid File Type", ?_⟩ <;>
      simp [handleFileSelect, him]

/-- Witness for C5 at an 11 MiB image against the initial state. -/
theorem reject_oversized_witness :
    (handleFileSelect initialState { type := "image/png", size := 11534336 }).selectedFile
        = initialState.selectedFile ∧
    (handleFileSelect initialState { type := "image/png", size := 11534336 }).previewUrl
        = initialState.previewUrl ∧
    (handleFileSelect initialState { type := "image/png", size := 11534336 }).nextUrl
        = initialState.nextUrl ∧
    (handleFileSelect initialState { type := "image/png", size := 11534336 }).scanStage
        = initialState.scanStage ∧
    (handleFileSelect initialState { type := "image/png", size := 11534336 }).selectedBreed
        = initialState.selectedBreed ∧
    (handleFileSelect initialState { type := "image/png", size := 11534336 }).analysisResult
        = initialState.analysisResult ∧
    (handleFileSelect initialState { type := "image/png", size := 11534336 }).revokedUrls
        = initialState.revokedUrls ∧
    ∃ t, (handleFileSelect initialState { type := "image/png", size := 11534336 }).toasts
        = initialState.toasts ++ [t] :=
  reject_oversized initialState { type := "image/png", size := 11534336 } (by decide)

/-- C6: reset from the Results stage returns the stage to Upload with
file, preview URL, breed and result cleared, and logs a revocation of
the old preview URL exactly when one was present. -/
theorem resetScanner_clears (s : ScannerState) (h : s.scanStage = ScanStage.results) :
    (resetScanner s).scanStage = ScanStage.upload ∧
    (resetScanner s).selectedFile = none ∧
    (resetScanner s).previewUrl = "" ∧
    (resetScanner s).selectedBreed = "" ∧
    (resetScanner s).analysisResult = none ∧
    (s.previewUrl ≠ "" → (resetScanner s).revokedUrls = s.revokedUrls ++ [s.previewUrl]) ∧
    (s.previewUrl = "" → (resetScanner s).revokedUrls = s.revokedUrls) := by
  unfold resetScanner
  by_cases hp : s.previewUrl = "" <;> simp [hp]

/-- A state in the Results stage with a live preview URL, used to
exercise the reset action. -/
def resultsDemoState : ScannerState :=
  { selectedBreed := "murrah"
    selectedFile := some { type := "image/png", size := 2048 }
    previewUrl := "blob:0"
    scanStage := ScanStage.results
    analysisResult := some sahiwalBaseline
    isDragging := false
    nextUrl := 1
    revokedUrls := []
    toasts := [] }

/-- Witness for C6 at a concrete Results-stage state. -/
theorem resetScanner_clears_witness :
    (resetScanner resultsDemoState).scanStage = ScanStage.upload ∧
    (resetScanner resultsDemoState).selectedFile = none ∧
    (resetScanner resultsDemoState).previewUrl = "" ∧
    (resetScanner resultsDemoState).selectedBreed = "" ∧
    (resetScanner resultsDemoState).analysisResult = none ∧
    (resultsDemoState.previewUrl ≠ "" →
      (resetScanner resultsDemoState).revokedUrls
        = resultsDemoState.revokedUrls ++ [resultsDemoState.previewUrl]) ∧
    (resultsDemoState.previewUrl = "" →
      (resetScanner resultsDemoState).revokedUrls = resultsDemoState.revokedUrls) :=
  resetScanner_clears resultsDemoState rfl

/-! Field-preservation lemmas for the invariant proof. -/

theorem handleFileSelect_scanStage (s : ScannerState) (f : JSFile) :
    (handleFileSelect s f).scanStage = s.scanStage := by
  unfold handleFileSelect; split_ifs <;> rfl

theorem handleFileSelect_analysisResult (s : ScannerState) (f : JSFile) :
    (handleFileSelect s f).analysisResult = s.analysisResult := by
  unfold handleFileSelect; split_ifs <;> rfl

theorem startAnalysis_analysisResult (s : ScannerState) :
    (startAnalysis s).analysisResult = s.analysisResult := by
  unfold startAnalysis; split <;> rfl

theorem startAnalysis_scanStage_cases (s : ScannerState) :
    (startAnalysis s).scanStage = s.scanStage ∨
    (startAnalysis s).scanStage = ScanStage.analyzing := by
  unfold startAnalysis; split
  · exact Or.inl rfl
  · exact Or.inr rfl

theorem resetScanner_scanStage (s : ScannerState) :
    (resetScanner s).scanStage = ScanStage.upload := by
  unfold resetScanner; split <;> rfl

theorem resetScanner_analysisResult (s : ScannerState) :
    (resetScanner s).analysisResult = none := by
  unfold resetScanner; split <;> rfl

theorem saveResults_scanStage (s : ScannerState) :
    (saveResults s).scanStage = s.scanStage := by
  unfold saveResults; split <;> rfl

theorem saveResults_analysisResult (s : ScannerState) :
    (saveResults s).analysisResult = s.analysisResult := by
  unfold saveResults; split <;> rfl

/-- C7: in every state reachable by the component's event handlers from
the initial state, the analysis result is non-null exactly when the
scan stage is Results. -/
theorem result_stage_invariant (s : ScannerState) (h : Reachable s) :
    s.analysisResult ≠ none ↔ s.scanStage = ScanStage.results := by
  induction h with
  | init => simp [initialState]
  | @next s s' e hr hstep ih =>
    cases e with
    | selectBreed b =>
      simp only [step] at hstep
      split at hstep
      · injection hstep with h2; subst h2; exact ih
      · exact Option.noConfusion hstep
    | chooseFile f =>
      simp only [step] at hstep
      split at hstep
      · injection hstep with h2; subst h2
        rw [handleFileSelect_analysisResult, handleFileSelect_scanStage]
        exact ih
      · exact Option.noConfusion hstep
    | clickStart =>
      simp only [step] at hstep
      split at hstep
      case isTrue hc =>
        injection hstep with h2; subst h2
        have hres : s.analysisResult = none := by
          by_contra hne
          rw [ih.mp hne] at hc
          exact ScanStage.noConfusion hc
        constructor
        · intro hne
          rw [startAnalysis_analysisResult, hres] at hne
          exact absurd rfl hne
        · intro hst
          rcases startAnalysis_scanStage_cases s with h3 | h3 <;> rw [hst] at h3
          · rw [hc] at h3; exact ScanStage.noConfusion h3
          · exact ScanStage.noConfusion h3
      case isFalse => exact Option.noConfusion hstep
    | timerDone v1 v2 v3 =>
      simp only [step] at hstep
      split at hstep
      · injection hstep with h2; subst h2
        simp [analysisComplete]
      · exact Option.noConfusion hstep
    | clickReset =>
      simp only [step] at hstep
      split at hstep
      · injection hstep with h2; subst h2
        rw [resetScanner_analysisResult, resetScanner_scanStage]
        simp
      · exact Option.noConfusion hstep
    | clickSave =>
      simp only [step] at hstep
      split at hstep
      · injection hstep with h2; subst h2
        rw [saveResults_analysisResult, saveResults_scanStage]
        exact ih
      · exact Option.noConfusion hstep
    | dragEnter =>
      simp only [step] at hstep
      split at hstep
      · injection hstep with h2; subst h2; exact ih
      · exact Option.noConfusion hstep
    | dragEnd =>
      simp only [step] at hstep
      split at hstep
      · injection hstep with h2; subst h2; exact ih
      · exact Option.noConfusion hstep

/-- Intermediate states of a full happy-path run, used as a reachable
witness for the invariant. -/
def demoS1 : ScannerState := { initialState with selectedBreed := "murrah" }

def demoS2 : ScannerState := handleFileSelect demoS1 { type := "image/png", size := 1000 }

def demoS3 : ScannerState := startAnalysis demoS2

def demoS4 : ScannerState := analysisComplete demoS3 1 2 3

/-- Witness for C7 at the Results-stage state reached by selecting
"murrah", uploading a 1000-byte PNG, starting the analysis and letting
the timer complete. -/
theorem result_stage_invariant_witness :
    demoS4.analysisResult ≠ none ↔ demoS4.scanStage = ScanStage.results := by
  have h1 : step initialState (Event.selectBreed "murrah") = some demoS1 := by decide
  have h2 : step demoS1 (Event.chooseFile { type := "image/png", size := 1000 })
      = some demoS2 := by decide
  have h3 : step demoS2 Event.clickStart = some demoS3 := by decide
  have h4 : step demoS3 (Event.timerDone 1 2 3) = some demoS4 := by decide
  exact result_stage_invariant demoS4
    (Reachable.next (Reachable.next (Reachable.next (Reachable.next Reachable.init h1) h2) h3) h4)

/-- C1: the code leaks the preview resource on replacement.  After two
accepted uploads from the initial state, the first preview URL
("blob:0") has been replaced by "blob:1", yet the revocation log is
still empty: `handleFileSelect` never calls `URL.revokeObjectURL`, so
the previous preview URI is not released before the new one is
stored. -/
theorem preview_leak_on_replacement :
    (handleFileSelect initialState { type := "image/png", size := 100 }).previewUrl
        = "blob:0" ∧
    (handleFileSelect (handleFileSelect initialState { type := "image/png", size := 100 })
        { type := "image/jpeg", size := 200 }).previewUrl = "blob:1" ∧
    (handleFileSelect (handleFileSelect initialState { type := "image/png", size := 100 })
        { type := "image/jpeg", size := 200 }).revokedUrls = [] := by
  decide
